import Mathlib

/-!
# A verification development for the `only_mcp` backend

This file embeds, in Lean, the authentication and OAuth 2.0 (authorization
code + PKCE) logic of the Falcon backend:

* `backend/app/oauth.py` — `OAuthAuthorizeResource.on_get` (code issuance)
  and `OAuthTokenResource.on_post` (token exchange);
* `backend/app/auth.py` — `AuthMiddleware.process_request` (the auth gate)
  and `RegisterResource.on_post`;
* `backend/app/helpers/tokens.py` — `Tokens.get_token`;
* `backend/app/helpers/users.py` — `Users.create_user`, `get_user_by_id`;
* `backend/app/app.py` — the route table.

Conventions of the embedding:

* Mongo collections become association lists (`List` of documents);
  `find_one` becomes `List.find?`, `update_one` updates the first match.
* `datetime` instants become `Nat`; the comparisons in the source are `<`
  on instants and carry over verbatim.
* Optional form/query parameters become `Option String`; the Python truthiness
  test `if not x` on such a value is the predicate `falsy` (absent or empty).
* Handlers are pure functions from (stores, clock, request) to
  (response, updated stores).  A response raised via `falcon.HTTPUnauthorized`
  in middleware aborts the request before any route handler runs; this is the
  `AuthDecision.unauthorized` constructor.
* External calls are embedded concretely where deterministic
  (`hashlib.sha256`, `base64.urlsafe_b64encode`, `str.encode("utf-8")` are
  implemented below to the byte) and as function parameters where they are
  genuine environment effects (`jwt.decode`, the randomness of
  `secrets.choice`, the possibility of a store failure in `insert_one`).
-/

namespace OnlyMcp

/-! ## Bytes: UTF-8 encoding (Python `str.encode("utf-8")`)

Bytes are `Nat`s below 256. -/

/-- UTF-8 encoding of a single scalar value, per RFC 3629 (what the CPython call
`str.encode("utf-8")` produces). -/
def utf8EncodeCharNat (c : Char) : List Nat :=
  let v := c.toNat
  if v < 0x80 then [v]
  else if v < 0x800 then
    [0xC0 ||| (v >>> 6), 0x80 ||| (v &&& 0x3F)]
  else if v < 0x10000 then
    [0xE0 ||| (v >>> 12), 0x80 ||| ((v >>> 6) &&& 0x3F), 0x80 ||| (v &&& 0x3F)]
  else
    [0xF0 ||| (v >>> 18), 0x80 ||| ((v >>> 12) &&& 0x3F),
     0x80 ||| ((v >>> 6) &&& 0x3F), 0x80 ||| (v &&& 0x3F)]

/-- `s.encode("utf-8")` as a byte list. -/
def utf8Bytes (s : String) : List Nat :=
  s.data.flatMap utf8EncodeCharNat

/-! ## SHA-256 (FIPS 180-4), the function behind `hashlib.sha256` -/

/-- 32-bit truncating addition. -/
def add32 (x y : Nat) : Nat := (x + y) % 2 ^ 32

/-- Rotation of a 32-bit word to the right by `n` positions. -/
def rotr32 (n x : Nat) : Nat := ((x >>> n) ||| (x <<< (32 - n))) % 2 ^ 32

/-- Bitwise complement of a 32-bit word. -/
def not32 (x : Nat) : Nat := x ^^^ 0xFFFFFFFF

/-- The SHA-256 round constants. -/
def shaK : List Nat :=
  [1116352408, 1899447441, 3049323471, 3921009573, 961987163,
   1508970993, 2453635748, 2870763221, 3624381080, 310598401,
   607225278, 1426881987, 1925078388, 2162078206, 2614888103,
   3248222580, 3835390401, 4022224774, 264347078, 604807628,
   770255983, 1249150122, 1555081692, 1996064986, 2554220882,
   2821834349, 2952996808, 3210313671, 3336571891, 3584528711,
   113926993, 338241895, 666307205, 773529912, 1294757372,
   1396182291, 1695183700, 1986661051, 2177026350, 2456956037,
   2730485921, 2820302411, 3259730800, 3345764771, 3516065817,
   3600352804, 4094571909, 275423344, 430227734, 506948616,
   659060556, 883997877, 958139571, 1322822218, 1537002063,
   1747873779, 1955562222, 2024104815, 2227730452, 2361852424,
   2428436474, 2756734187, 3204031479, 3329325298]

/-- The eight 32-bit words of SHA-256 working state. -/
structure Hash8 where
  a : Nat
  b : Nat
  c : Nat
  d : Nat
  e : Nat
  f : Nat
  g : Nat
  h : Nat
deriving Repr, DecidableEq

/-- SHA-256 initial hash value. -/
def shaInit : Hash8 :=
  ⟨1779033703, 3144134277, 1013904242, 2773480762,
   1359893119, 2600822924, 528734635, 1541459225⟩

/-- Message padding: append `0x80`, zeros, then the 64-bit big-endian bit
length, reaching a multiple of 64 bytes. -/
def shaPad (msg : List Nat) : List Nat :=
  let bitLen := 8 * msg.length
  let z := (120 - (msg.length + 1) % 64) % 64
  msg ++ [0x80] ++ List.replicate z 0 ++
    [(bitLen >>> 56) &&& 255, (bitLen >>> 48) &&& 255, (bitLen >>> 40) &&& 255,
     (bitLen >>> 32) &&& 255, (bitLen >>> 24) &&& 255, (bitLen >>> 16) &&& 255,
     (bitLen >>> 8) &&& 255, bitLen &&& 255]

/-- Take the first `n` 64-byte blocks of a byte list. -/
def toBlocksN : Nat → List Nat → List (List Nat)
  | 0, _ => []
  | n + 1, l => l.take 64 :: toBlocksN n (l.drop 64)

/-- Split a byte list into its 64-byte blocks (padded input always has a
length that is a multiple of 64). -/
def toBlocks (l : List Nat) : List (List Nat) := toBlocksN (l.length / 64) l

/-- Big-endian 32-bit words from a block of bytes. -/
def bytesToWords : List Nat → List Nat
  | b0 :: b1 :: b2 :: b3 :: rest =>
    ((b0 <<< 24) + (b1 <<< 16) + (b2 <<< 8) + b3) :: bytesToWords rest
  | _ => []

/-- Small sigma functions of the message schedule. -/
def sig0 (x : Nat) : Nat := (rotr32 7 x) ^^^ (rotr32 18 x) ^^^ (x >>> 3)

/-- Small sigma 1. -/
def sig1 (x : Nat) : Nat := (rotr32 17 x) ^^^ (rotr32 19 x) ^^^ (x >>> 10)

/-- Extend the 16-word schedule by `n` further words. -/
def extendW (ws : List Nat) : Nat → List Nat
  | 0 => ws
  | n + 1 =>
    let i := ws.length
    let w := (sig1 (ws.getD (i - 2) 0) + ws.getD (i - 7) 0 +
              sig0 (ws.getD (i - 15) 0) + ws.getD (i - 16) 0) % 2 ^ 32
    extendW (ws ++ [w]) n

/-- One compression round, consuming the pair of round constant and
schedule word. -/
def shaRound (st : Hash8) (kw : Nat × Nat) : Hash8 :=
  let S1 := (rotr32 6 st.e) ^^^ (rotr32 11 st.e) ^^^ (rotr32 25 st.e)
  let ch := (st.e &&& st.f) ^^^ ((not32 st.e) &&& st.g)
  let t1 := (st.h + S1 + ch + kw.1 + kw.2) % 2 ^ 32
  let S0 := (rotr32 2 st.a) ^^^ (rotr32 13 st.a) ^^^ (rotr32 22 st.a)
  let maj := (st.a &&& st.b) ^^^ (st.a &&& st.c) ^^^ (st.b &&& st.c)
  let t2 := (S0 + maj) % 2 ^ 32
  ⟨(t1 + t2) % 2 ^ 32, st.a, st.b, st.c, (st.d + t1) % 2 ^ 32, st.e, st.f, st.g⟩

/-- Compress one 64-byte block into the running hash. -/
def shaCompress (st : Hash8) (block : List Nat) : Hash8 :=
  let w := extendW (bytesToWords block) 48
  let t := List.foldl shaRound st (shaK.zip w)
  ⟨add32 st.a t.a, add32 st.b t.b, add32 st.c t.c, add32 st.d t.d,
   add32 st.e t.e, add32 st.f t.f, add32 st.g t.g, add32 st.h t.h⟩

/-- The four big-endian bytes of a word. -/
def bytesOfWord (w : Nat) : List Nat :=
  [(w >>> 24) &&& 255, (w >>> 16) &&& 255, (w >>> 8) &&& 255, w &&& 255]

/-- The 32 digest bytes of a final state. -/
def digestBytes (st : Hash8) : List Nat :=
  bytesOfWord st.a ++ bytesOfWord st.b ++ bytesOfWord st.c ++ bytesOfWord st.d ++
  bytesOfWord st.e ++ bytesOfWord st.f ++ bytesOfWord st.g ++ bytesOfWord st.h

/-- `hashlib.sha256(msg).digest()`: the 32-byte SHA-256 digest. -/
def sha256 (msg : List Nat) : List Nat :=
  digestBytes (List.foldl shaCompress shaInit (toBlocks (shaPad msg)))

/-! ## Unpadded URL-safe base64 (`base64.urlsafe_b64encode(...).rstrip(b"=")`) -/

/-- The URL-safe base64 alphabet. -/
def b64Char (n : Nat) : Char :=
  ("ABCDEFGHIJKLMNOPQRSTUVWXYZabcdefghijklmnopqrstuvwxyz0123456789-_").data.getD n 'A'

/-- URL-safe base64 without padding characters. -/
def b64urlChars : List Nat → List Char
  | [] => []
  | [b0] => [b64Char (b0 >>> 2), b64Char ((b0 &&& 3) <<< 4)]
  | [b0, b1] =>
    [b64Char (b0 >>> 2), b64Char (((b0 &&& 3) <<< 4) ||| (b1 >>> 4)),
     b64Char ((b1 &&& 15) <<< 2)]
  | b0 :: b1 :: b2 :: rest =>
    b64Char (b0 >>> 2) :: b64Char (((b0 &&& 3) <<< 4) ||| (b1 >>> 4)) ::
    b64Char (((b1 &&& 15) <<< 2) ||| (b2 >>> 6)) :: b64Char (b2 &&& 63) ::
    b64urlChars rest

/-- The PKCE S256 transform used at `oauth.py:202-205`:
`base64.urlsafe_b64encode(hashlib.sha256(verifier.encode("utf-8")).digest()).rstrip(b"=").decode("utf-8")`. -/
def computedChallenge (verifier : String) : String :=
  String.mk (b64urlChars (sha256 (utf8Bytes verifier)))

/-! ## Python value conventions -/

/-- Python truthiness failure of an optional string: `if not x` holds exactly
when the parameter is absent (`None`) or the empty string. -/
def falsy : Option String → Bool
  | none => true
  | some s => s == ""

/-- Python `x or default` on an optional string (used at `oauth.py:71,73`). -/
def pyOr (o : Option String) (d : String) : String :=
  match o with
  | none => d
  | some s => if s == "" then d else s

/-- Python f-string rendering of an optional value: `None` prints as the
four characters `None`. -/
def pyStr : Option String → String
  | none => "None"
  | some s => s

/-! ## Data model: the Mongo documents and stores -/

/-- A document of `auth_codes_coll`, as built at `oauth.py:108-119`.
The Mongo `_id` field is `id` here; instants are in seconds. -/
structure AuthCodeDoc where
  id : String
  user_id : String
  client_id : String
  redirect_uri : String
  code_challenge : String
  code_challenge_method : String
  scope : String
  created_at : Nat
  expires_at : Nat
  used : Bool
deriving Repr, DecidableEq

/-- A document of `users_coll` (the fields the embedded handlers read). -/
structure UserDoc where
  id : String
  username : String
deriving Repr, DecidableEq

/-- A document of `tokens_coll`, as written by
`Tokens.generate_and_store_token`: keyed by the `_id` of the user, carrying the
JWT in field `token`. -/
structure TokenDoc where
  id : String
  token : String
  expires_at : Nat
deriving Repr, DecidableEq

/-- `auth_codes_coll.find_one({"_id": code})`. -/
def findCode (authCodes : List AuthCodeDoc) (code : String) : Option AuthCodeDoc :=
  authCodes.find? (fun d => d.id == code)

/-- `auth_codes_coll.update_one({"_id": code}, {"$set": {"used": True}})`:
set `used` on the first matching document. -/
def markUsed : List AuthCodeDoc → String → List AuthCodeDoc
  | [], _ => []
  | d :: rest, code =>
    if d.id == code then { d with used := true } :: rest
    else d :: markUsed rest code

/-- `Tokens.get_token` (`tokens.py:57-60`):
`tokens_coll.find_one({"token": token})`. -/
def get_token (tokens : List TokenDoc) (token : String) : Option TokenDoc :=
  tokens.find? (fun d => d.token == token)

/-- `Users.get_user_by_id` (`users.py:66-69`):
`users_coll.find_one({"_id": user_id})`. -/
def get_user_by_id (users : List UserDoc) (user_id : String) : Option UserDoc :=
  users.find? (fun u => u.id == user_id)

/-! ## `OAuthTokenResource.on_post` — the token exchange (`oauth.py:131-244`) -/

/-- The parsed form body of a token-exchange request (`oauth.py:136-140`);
`form_data.get` yields `None` for a missing key. -/
structure TokenRequest where
  grant_type : Option String
  code : Option String
  redirect_uri : Option String
  client_id : Option String
  code_verifier : Option String
deriving Repr, DecidableEq

/-- The response of the token exchange: either an error body with an explicit
status, or the success body (the Falcon default status 200 made explicit).
`access_token` on success is whatever `Tokens.get_token` returned — a token
document or `None`. -/
inductive TokenResult where
  | err (status : Nat) (error : String) (error_description : String)
  | ok (status : Nat) (access_token : Option TokenDoc) (token_type : String)
      (expires_in : Nat)
deriving Repr, DecidableEq

/-- The token-exchange handler.  Checks run in source order:
grant type, parameter presence, code lookup, used flag, expiry
(strict `expires_at < now`), client_id, redirect_uri, PKCE, user lookup;
only the full success path issues the response body of `oauth.py:240-244`
and marks the code used.  Returns the response and the updated
`auth_codes` store. -/
def onPostToken (authCodes : List AuthCodeDoc) (users : List UserDoc)
    (tokens : List TokenDoc) (now : Nat) (req : TokenRequest) :
    TokenResult × List AuthCodeDoc :=
  if req.grant_type ≠ some "authorization_code" then
    (.err 400 "unsupported_grant_type" "Must be authorization_code", authCodes)
  else if falsy req.code ∨ falsy req.redirect_uri ∨ falsy req.client_id ∨
      falsy req.code_verifier then
    (.err 400 "invalid_request" "Missing required parameters", authCodes)
  else
    match findCode authCodes (req.code.getD "") with
    | none => (.err 400 "invalid_grant" "Authorization code not found", authCodes)
    | some code_doc =>
      if code_doc.used then
        (.err 400 "invalid_grant" "Authorization code already used.", authCodes)
      else if code_doc.expires_at < now then
        (.err 400 "invalid_grant" "Authorization code expired.", authCodes)
      else if code_doc.client_id ≠ req.client_id.getD "" then
        (.err 400 "invalid_request" "Invalid client_id for this code.", authCodes)
      else if code_doc.redirect_uri ≠ req.redirect_uri.getD "" then
        (.err 400 "invalid_request" "Mismatched redirect_uri.", authCodes)
      else if code_doc.code_challenge_method == "S256" then
        if computedChallenge (req.code_verifier.getD "") ≠ code_doc.code_challenge then
          (.err 400 "invalid_grant" "PKCE validation failed.", authCodes)
        else
          match get_user_by_id users code_doc.user_id with
          | none => (.err 400 "invalid_grant" "User not found.", authCodes)
          | some _ =>
            (.ok 200 (get_token tokens code_doc.user_id) "Bearer" 86400,
             markUsed authCodes (req.code.getD ""))
      else
        if req.code_verifier.getD "" ≠ code_doc.code_challenge then
          (.err 400 "invalid_grant" "PKCE (plain) validation failed.", authCodes)
        else
          match get_user_by_id users code_doc.user_id with
          | none => (.err 400 "invalid_grant" "User not found.", authCodes)
          | some _ =>
            (.ok 200 (get_token tokens code_doc.user_id) "Bearer" 86400,
             markUsed authCodes (req.code.getD ""))

/-! ## `OAuthAuthorizeResource.on_get` — code issuance (`oauth.py:54-128`) -/

/-- Responses of the authorize endpoint: a 401 raised via `HTTPUnauthorized`,
or a 302 redirect with a `Location` value. -/
inductive AuthorizeResult where
  | unauthorized (description : String)
  | redirect (status : Nat) (location : String)
deriving Repr, DecidableEq

/-- The helper at `oauth.py:76-82`: build
`f"{redirect_uri}?error={error}&error_description={description}"` (plus
`&state=` when `state` is truthy) and answer 302.  When `redirect_uri` is
`None` the f-string renders it as the literal text `None`. -/
def redirect_with_error (redirect_uri st : Option String)
    (error description : String) : AuthorizeResult :=
  .redirect 302
    (pyStr redirect_uri ++ "?error=" ++ error ++ "&error_description=" ++
     description ++ (if falsy st then "" else "&state=" ++ st.getD ""))

/-- The authorize handler.  `authCode` stands for the 32-character random
code drawn at `oauth.py:102-104`; `now` is `datetime.utcnow()` in seconds,
so the stored expiry is `now + 600` (ten minutes).  Returns the response
and the updated `auth_codes` store. -/
def onGetAuthorize (authCodes : List AuthCodeDoc) (now : Nat) (authCode : String)
    (user_id response_type client_id redirect_uri code_challenge
     code_challenge_method st scope : Option String) :
    AuthorizeResult × List AuthCodeDoc :=
  if falsy user_id then
    (.unauthorized
      "User not authenticated. Please log in first before using oauth flow.",
     authCodes)
  else
    let method := pyOr code_challenge_method "S256"
    if response_type ≠ some "code" then
      (redirect_with_error redirect_uri st "unsupported_response_type"
        "Only \x27code\x27 is supported", authCodes)
    else if falsy client_id ∨ falsy redirect_uri ∨ falsy code_challenge then
      (redirect_with_error redirect_uri st "invalid_request"
        "Missing client_id, redirect_uri, or code_challenge", authCodes)
    else if method ≠ "S256" then
      (redirect_with_error redirect_uri st "invalid_request"
        "Only S256 PKCE is supported", authCodes)
    else
      let doc : AuthCodeDoc :=
        { id := authCode
          user_id := user_id.getD ""
          client_id := client_id.getD ""
          redirect_uri := redirect_uri.getD ""
          code_challenge := code_challenge.getD ""
          code_challenge_method := method
          scope := pyOr scope ""
          created_at := now
          expires_at := now + 600
          used := false }
      (.redirect 302
        (redirect_uri.getD "" ++ "?code=" ++ authCode ++
         (if falsy st then "" else "&state=" ++ st.getD "")),
       authCodes ++ [doc])

/-! ## `AuthMiddleware.process_request` — the auth gate (`auth.py:45-98`) -/

/-- Outcome of `jwt.decode(token, JWT_SECRET, algorithms=[JWT_ALGO])`:
raises `ExpiredSignatureError`, raises `InvalidTokenError`, or returns a
payload whose `sub` claim is a user id.  The library call is embedded as a
function parameter of this type. -/
inductive JwtOutcome where
  | expired
  | invalid
  | valid (sub : String)
deriving Repr, DecidableEq

/-- What the middleware decides for a request: let it pass with no
authentication (public path), abort it with 401 before any route handler
runs, or attach `user_id` to the request context and continue. -/
inductive AuthDecision where
  | passthrough
  | unauthorized (description : String)
  | authenticated (user_id : String)
deriving Repr, DecidableEq

/-- ASCII whitespace, the characters the Python `str.split()` call with no
argument splits on. -/
def isPySpace (c : Char) : Bool :=
  c == ' ' || c == '\t' || c == '\n' || c == '\r' || c == '\x0b' || c == '\x0c'

/-- Worker for `pySplit`: walk the characters, collecting the current word
reversed. -/
def pySplitAux : List Char → List Char → List String
  | [], acc => if acc.isEmpty then [] else [String.mk acc.reverse]
  | c :: rest, acc =>
    if isPySpace c then
      if acc.isEmpty then pySplitAux rest []
      else String.mk acc.reverse :: pySplitAux rest []
    else pySplitAux rest (c :: acc)

/-- Behavior of the Python `str.split()` call with no argument: split on
runs of whitespace, discarding empty pieces. -/
def pySplit (s : String) : List String := pySplitAux s.data []

/-- Lower-case one character (the ASCII case of the Python `str.lower()`
call, which is all the scheme comparison needs). -/
def pyLowerChar (c : Char) : Char :=
  if 65 ≤ c.toNat ∧ c.toNat ≤ 90 then Char.ofNat (c.toNat + 32) else c

/-- The `str.lower()` call on a header scheme. -/
def pyLower (s : String) : String := String.mk (s.data.map pyLowerChar)

/-- The Python `str.startswith` test. -/
def pyStartsWith (s p : String) : Bool := p.data.isPrefixOf s.data

/-- What the middleware reads off an incoming request: its path, the
`session` cookie if any, and the `Authorization` header if any. -/
structure AuthRequest where
  path : String
  cookie_session : Option String
  auth_header : Option String
deriving Repr, DecidableEq

/-- The decode-and-lookup stage of the gate (`auth.py:83-98`): decode the
JWT, answer 401 for an expired or invalid token, then require the token to
be present in the token store, and finally attach the `sub` claim. -/
def checkToken (decode : String → JwtOutcome) (tokens : List TokenDoc)
    (token : String) : AuthDecision :=
  match decode token with
  | .expired => .unauthorized "Token expired, please log in again"
  | .invalid => .unauthorized "Invalid token"
  | .valid sub =>
    match get_token tokens token with
    | none => .unauthorized "Token is not recognized (possibly revoked or invalid)"
    | some _ => .authenticated sub

/-- The auth gate.  `decode` embeds `jwt.decode` (whose secret and clock are
environment); `tokens` is the `tokens_coll` store read by
`Tokens.get_token(token)`.  Public paths pass through; otherwise the
credential is the `session` cookie when truthy, else the second part of a
two-part `Bearer` header; then the JWT is decoded and looked up in the
store.  Every failure raises `HTTPUnauthorized`, aborting the request
before any route handler runs. -/
def process_request (decode : String → JwtOutcome) (tokens : List TokenDoc)
    (req : AuthRequest) : AuthDecision :=
  if req.path == "/sse" then .passthrough
  else if ¬ pyStartsWith req.path "/api" then .passthrough
  else if req.path == "/api/auth/register" ∨ req.path == "/api/auth/login" then
    .passthrough
  else if req.path == "/api/chat" then .passthrough
  else
    let headerToken : Except String String :=
      if falsy req.auth_header then
        .error "Missing Authorization header or session cookie"
      else
        let parts := pySplit (req.auth_header.getD "")
        if parts.length ≠ 2 ∨ pyLower (parts.headD "") ≠ "bearer" then
          .error "Invalid Authorization header format. Use \x27Bearer <token>\x27"
        else .ok (parts.getD 1 "")
    let tokenOrErr : Except String String :=
      if falsy req.cookie_session then headerToken
      else .ok (req.cookie_session.getD "")
    match tokenOrErr with
    | .error d => .unauthorized d
    | .ok token => checkToken decode tokens token

/-! ## `RegisterResource.on_post` and `Users.create_user`
(`auth.py:101-120`, `users.py:48-64`) -/

/-- `Users.create_user`: raise (`Except.error`) when the username is taken;
otherwise insert the new user document.  `insertOutcome` embeds the
possibility that the store operations themselves raise (collection
unavailable, etc.); `newId` embeds `str(uuid4())`. -/
def create_user (users : List UserDoc) (newId : String)
    (insertOutcome : Except String Unit) (username : String) :
    Except String UserDoc :=
  match users.find? (fun u => u.username == username) with
  | some _ => .error "Username already taken"
  | none =>
    match insertOutcome with
    | .error e => .error e
    | .ok _ => .ok { id := newId, username := username }

/-- A response of the registration endpoint. -/
inductive RegisterResult where
  | httpError (status : Nat) (description : String)
  | registered (status : Nat) (id : String)
deriving Repr, DecidableEq

/-- `RegisterResource.on_post`: missing fields give 400; then
`Users.create_user` runs inside `try`, and **every** exception it raises is
re-raised as `HTTPConflict` (409) carrying `str(e)`; success answers 201. -/
def registerOnPost (users : List UserDoc) (newId : String)
    (insertOutcome : Except String Unit) (username password : Option String) :
    RegisterResult :=
  if falsy username ∨ falsy password then
    .httpError 400 "Username and password are required"
  else
    match create_user users newId insertOutcome (username.getD "") with
    | .error e => .httpError 409 e
    | .ok doc => .registered 201 doc.id

/-- `custom_handle_uncaught_exception` (`app.py:76-82`): any exception not
handled inside a responder becomes a 500 whose body is `str(exception)`. -/
def custom_handle_uncaught_exception (exceptionText : String) : Nat × String :=
  (500, exceptionText)

/-! ## The route table of `app.py:102-122` -/

/-- Every path template passed to `app.add_route`. -/
def appRoutes : List String :=
  ["/api/auth/register", "/api/auth/login", "/api/auth/logout", "/api/auth/me",
   "/api/schemas", "/api/schemas/{schema_id}", "/api/schemas/{schema_id}/entities",
   "/api/schemas/{schema_id}/entities/{entity_id}",
   "/.well-known/oauth-authorization-server", "/api/oauth/authorize",
   "/api/oauth/token", "/api/mcp", "/api/chat"]

/-! ## Concrete fixtures used in witnesses and counterexamples -/

/-- A stored authorization code in plain PKCE mode, expiring at instant 100. -/
def demoDoc : AuthCodeDoc :=
  { id := "CODE1"
    user_id := "u1"
    client_id := "client-1"
    redirect_uri := "https://example.com/cb"
    code_challenge := "vvv"
    code_challenge_method := "plain"
    scope := ""
    created_at := 0
    expires_at := 100
    used := false }

/-- The user that issued `demoDoc`. -/
def demoUser : UserDoc := { id := "u1", username := "alice" }

/-- A token-exchange request matching `demoDoc` in every field. -/
def demoReq : TokenRequest :=
  { grant_type := some "authorization_code"
    code := some "CODE1"
    redirect_uri := some "https://example.com/cb"
    client_id := some "client-1"
    code_verifier := some "vvv" }

/-- The record `demoDoc` after consumption. -/
def usedDemoDoc : AuthCodeDoc := { demoDoc with used := true }

/-- An S256-mode record whose stored challenge is the encoded SHA-256 hash
of the verifier `v`. -/
def s256Doc (v : String) : AuthCodeDoc :=
  { demoDoc with
    code_challenge := computedChallenge v
    code_challenge_method := "S256" }

/-- The request `demoReq` with its verifier replaced by `w`. -/
def verifierReq (w : String) : TokenRequest :=
  { demoReq with code_verifier := some w }

/-- Nonempty strings of copies of one letter, one per natural number. -/
def aString (n : Nat) : String := String.mk (List.replicate (n + 1) 'a')

/-- Numeric value of a byte list, used to compare digests through `Fin`. -/
def natOfBytes (l : List Nat) : Nat := l.foldr (fun b acc => b + 256 * acc) 0

/-! ## Helper lemmas -/

/-- A digest always has 32 bytes. -/
theorem digestBytes_length (st : Hash8) : (digestBytes st).length = 32 := by
  simp [digestBytes, bytesOfWord]

/-- The four bytes of a word are genuine bytes. -/
theorem bytesOfWord_lt256 (w : Nat) : ∀ b ∈ bytesOfWord w, b < 256 := by
  intro b hb
  simp only [bytesOfWord, List.mem_cons, List.not_mem_nil, or_false] at hb
  rcases hb with rfl | rfl | rfl | rfl <;>
    exact Nat.lt_succ_of_le Nat.and_le_right

/-- Digest bytes are genuine bytes: each is below 256. -/
theorem digestBytes_lt256 (st : Hash8) : ∀ b ∈ digestBytes st, b < 256 := by
  intro b hb
  simp only [digestBytes, List.mem_append] at hb
  rcases hb with ((((((h | h) | h) | h) | h) | h) | h) | h <;>
    exact bytesOfWord_lt256 _ b h

/-- The SHA-256 digest of any message has 32 bytes. -/
theorem sha256_length (msg : List Nat) : (sha256 msg).length = 32 :=
  digestBytes_length _

/-- Every byte of a SHA-256 digest is below 256. -/
theorem sha256_lt256 (msg : List Nat) : ∀ b ∈ sha256 msg, b < 256 :=
  digestBytes_lt256 _

/-- The numeric value of a byte list is below 256 to the length. -/
theorem natOfBytes_lt (l : List Nat) (h : ∀ b ∈ l, b < 256) :
    natOfBytes l < 256 ^ l.length := by
  induction l with
  | nil => simp [natOfBytes]
  | cons b rest ih =>
    have hb : b < 256 := h b (List.mem_cons_self ..)
    have hrest := ih (fun x hx => h x (List.mem_cons_of_mem _ hx))
    simp only [natOfBytes, List.foldr_cons, List.length_cons, pow_succ] at *
    have : rest.foldr (fun b acc => b + 256 * acc) 0 + 1 ≤ 256 ^ rest.length :=
      hrest
    calc b + 256 * rest.foldr (fun b acc => b + 256 * acc) 0
        < 256 * (rest.foldr (fun b acc => b + 256 * acc) 0 + 1) := by omega
      _ ≤ 256 * 256 ^ rest.length := by omega
      _ = 256 ^ rest.length * 256 := by ring

/-- Byte lists of equal length with genuine bytes are determined by their
numeric value. -/
theorem natOfBytes_inj : ∀ (l₁ l₂ : List Nat), l₁.length = l₂.length →
    (∀ b ∈ l₁, b < 256) → (∀ b ∈ l₂, b < 256) →
    natOfBytes l₁ = natOfBytes l₂ → l₁ = l₂ := by
  intro l₁
  induction l₁ with
  | nil =>
    intro l₂ hlen _ _ _
    cases l₂ with
    | nil => rfl
    | cons c t => simp at hlen
  | cons b rest ih =>
    intro l₂ hlen h₁ h₂ hval
    cases l₂ with
    | nil => simp at hlen
    | cons c t =>
      have hb : b < 256 := h₁ b (List.mem_cons_self ..)
      have hc : c < 256 := h₂ c (List.mem_cons_self ..)
      simp only [natOfBytes, List.foldr_cons] at hval
      have hbc : b = c ∧ rest.foldr (fun b acc => b + 256 * acc) 0 =
          t.foldr (fun b acc => b + 256 * acc) 0 := by
        constructor <;> omega
      have htail : rest = t := by
        refine ih t ?_ (fun x hx => h₁ x (List.mem_cons_of_mem _ hx))
          (fun x hx => h₂ x (List.mem_cons_of_mem _ hx)) hbc.2
        simpa using hlen
      rw [hbc.1, htail]

/-- Fixture strings are never empty. -/
theorem aString_ne_empty (n : Nat) : aString n ≠ "" := by
  intro h
  have h2 := congrArg (fun s => s.data.length) h
  simp [aString] at h2

/-- Different indices give different fixture strings. -/
theorem aString_injective : Function.Injective aString := by
  intro m n h
  have := congrArg (fun s => s.data.length) h
  simpa [aString] using this

/-- Two distinct strings share one encoded SHA-256 challenge: the challenge
map takes infinitely many strings into finitely many digests, so it cannot
be injective.  This is the standard pigeonhole fact that a terminating hash
has collisions (no concrete pair is known for SHA-256, so the witnesses are
non-constructive). -/
theorem challenge_collision : ∃ v w : String, v ≠ w ∧ v ≠ "" ∧ w ≠ "" ∧
    computedChallenge v = computedChallenge w := by
  have hmap : Set.MapsTo (fun n : Nat => natOfBytes (sha256 (utf8Bytes (aString n))))
      Set.univ (Set.Iio (256 ^ 32)) := by
    intro n _
    have h := natOfBytes_lt (sha256 (utf8Bytes (aString n)))
      (sha256_lt256 (utf8Bytes (aString n)))
    rw [sha256_length] at h
    exact h
  obtain ⟨m, -, n, -, hmn, heq⟩ :=
    Set.infinite_univ.exists_ne_map_eq_of_mapsTo hmap (Set.finite_Iio _)
  refine ⟨aString m, aString n, fun hc => hmn (aString_injective hc),
    aString_ne_empty m, aString_ne_empty n, ?_⟩
  have hdig : sha256 (utf8Bytes (aString m)) = sha256 (utf8Bytes (aString n)) :=
    natOfBytes_inj _ _ (by rw [sha256_length, sha256_length])
      (sha256_lt256 _) (sha256_lt256 _) heq
  unfold computedChallenge
  rw [hdig]

/-- Marking one code used keeps every stored document, only ever raising
its `used` flag. -/
theorem markUsed_mem : ∀ (store : List AuthCodeDoc) (code : String), ∀ d ∈ store,
    ∃ d' ∈ markUsed store code, d'.id = d.id ∧ (d.used = true → d'.used = true) := by
  intro store code
  induction store with
  | nil => intro d hd; exact absurd hd (List.not_mem_nil _)
  | cons x rest ih =>
    intro d hd
    rw [List.mem_cons] at hd
    by_cases hx : (x.id == code) = true
    · rcases hd with rfl | hd
      · exact ⟨{ d with used := true }, by simp [markUsed, hx], rfl, fun _ => rfl⟩
      · exact ⟨d, by simp [markUsed, hx, List.mem_cons, hd], rfl, fun hu => hu⟩
    · rcases hd with rfl | hd
      · exact ⟨d, by simp [markUsed, hx], rfl, fun hu => hu⟩
      · obtain ⟨d', hm, hid, him⟩ := ih d hd
        exact ⟨d', by simp [markUsed, hx, List.mem_cons]; right; exact hm,
          hid, him⟩

/-- The token exchange either leaves the code store untouched or marks the
presented code used; it never removes or rewrites anything else. -/
theorem onPostToken_snd (authCodes : List AuthCodeDoc) (users : List UserDoc)
    (tokens : List TokenDoc) (now : Nat) (req : TokenRequest) :
    (onPostToken authCodes users tokens now req).2 = authCodes ∨
    (onPostToken authCodes users tokens now req).2 =
      markUsed authCodes (req.code.getD "") := by
  unfold onPostToken
  repeat' split
  all_goals simp

/-- The decode-and-lookup stage never lets a request pass through without
authentication. -/
theorem checkToken_ne_passthrough (decode : String → JwtOutcome)
    (tokens : List TokenDoc) (token : String) :
    checkToken decode tokens token ≠ AuthDecision.passthrough := by
  unfold checkToken
  repeat' split
  all_goals simp

/-! ## The claims -/

/-- C10: every token-exchange request that ends in an error response —
including a PKCE mismatch on an otherwise valid code and the case where
the issuing user no longer exists — leaves the stored authorization-code
records exactly as they were; only the full success path touches the
store. -/
theorem token_error_preserves_store (authCodes : List AuthCodeDoc)
    (users : List UserDoc) (tokens : List TokenDoc) (now : Nat)
    (req : TokenRequest) (s : Nat) (e d : String)
    (h : (onPostToken authCodes users tokens now req).1 = TokenResult.err s e d) :
    (onPostToken authCodes users tokens now req).2 = authCodes := by
  revert h
  unfold onPostToken
  repeat' split
  all_goals intro h
  all_goals simp_all

/-- Closed instance of `token_error_preserves_store`: a not-found error
leaves an empty store empty. -/
theorem token_error_preserves_store_witness :
    (onPostToken [] [] [] 0 demoReq).2 = ([] : List AuthCodeDoc) :=
  token_error_preserves_store [] [] [] 0 demoReq 400 "invalid_grant"
    "Authorization code not found" (by decide)

/-- C1: the consumed flag of a stored code only ever goes from unused to
used (the exchange never resets it), and once a code document is marked
used, every further exchange request presenting that code — whatever
verifier, client id and redirect value it supplies — fails with
400 `invalid_grant` and the already-used description. -/
theorem auth_code_single_use :
    (∀ (authCodes : List AuthCodeDoc) (users : List UserDoc)
       (tokens : List TokenDoc) (now : Nat) (req : TokenRequest),
       ∀ d ∈ authCodes, d.used = true →
       ∃ d' ∈ (onPostToken authCodes users tokens now req).2,
         d'.id = d.id ∧ d'.used = true) ∧
    (∀ (authCodes : List AuthCodeDoc) (users : List UserDoc)
       (tokens : List TokenDoc) (now : Nat) (req : TokenRequest)
       (code_doc : AuthCodeDoc),
       req.grant_type = some "authorization_code" →
       falsy req.code = false → falsy req.redirect_uri = false →
       falsy req.client_id = false → falsy req.code_verifier = false →
       findCode authCodes (req.code.getD "") = some code_doc →
       code_doc.used = true →
       (onPostToken authCodes users tokens now req).1 =
         TokenResult.err 400 "invalid_grant" "Authorization code already used.") := by
  constructor
  · intro authCodes users tokens now req d hd hu
    rcases onPostToken_snd authCodes users tokens now req with h2 | h2
    · rw [h2]
      exact ⟨d, hd, rfl, hu⟩
    · rw [h2]
      obtain ⟨d', hm, hid, him⟩ := markUsed_mem authCodes (req.code.getD "") d hd
      exact ⟨d', hm, hid, him hu⟩
  · intro authCodes users tokens now req code_doc hg hc hr hcl hv hf hu
    simp [onPostToken, hg, hc, hr, hcl, hv, hf, hu]

/-- Closed instance of `auth_code_single_use` on a consumed demo record. -/
theorem auth_code_single_use_witness :
    (∃ d' ∈ (onPostToken [usedDemoDoc] [] [] 0 demoReq).2,
       d'.id = usedDemoDoc.id ∧ d'.used = true) ∧
    (onPostToken [usedDemoDoc] [] [] 0 demoReq).1 =
      TokenResult.err 400 "invalid_grant" "Authorization code already used." :=
  ⟨auth_code_single_use.1 [usedDemoDoc] [] [] 0 demoReq usedDemoDoc
     (by decide) (by decide),
   auth_code_single_use.2 [usedDemoDoc] [] [] 0 demoReq usedDemoDoc
     (by decide) (by decide) (by decide) (by decide) (by decide) (by decide)
     (by decide)⟩

/-- C5 counterexample: at the exact boundary `now = expires_at` the token
exchange does NOT treat the code as expired — the redemption goes through
(the comparison is strictly `expires_at < now`), contradicting the claim
that the boundary instant is rejected. -/
theorem expiry_boundary_counterexample :
    demoDoc.expires_at = 100 ∧
    (onPostToken [demoDoc] [demoUser] [] 100 demoReq).1 =
      TokenResult.ok 200 none "Bearer" 86400 := by
  constructor
  · rfl
  · decide

/-- C5 (amended): with the earlier checks passing, the token exchange
rejects for expiry exactly when `expires_at < now` strictly; the boundary
instant `now = expires_at` is still accepted. -/
theorem expiry_rejection_is_strict (authCodes : List AuthCodeDoc)
    (users : List UserDoc) (tokens : List TokenDoc) (now : Nat)
    (req : TokenRequest) (code_doc : AuthCodeDoc)
    (hg : req.grant_type = some "authorization_code")
    (hc : falsy req.code = false) (hr : falsy req.redirect_uri = false)
    (hcl : falsy req.client_id = false) (hv : falsy req.code_verifier = false)
    (hf : findCode authCodes (req.code.getD "") = some code_doc)
    (hu : code_doc.used = false) :
    ((onPostToken authCodes users tokens now req).1 =
      TokenResult.err 400 "invalid_grant" "Authorization code expired.") ↔
    code_doc.expires_at < now := by
  by_cases hexp : code_doc.expires_at < now
  · simp [onPostToken, hg, hc, hr, hcl, hv, hf, hu, hexp]
  · have hne : (onPostToken authCodes users tokens now req).1 ≠
        TokenResult.err 400 "invalid_grant" "Authorization code expired." := by
      unfold onPostToken
      simp only [hg, hc, hr, hcl, hv, hf, hu, hexp]
      repeat' split
      all_goals simp_all
    simp [hne, hexp]

/-- Closed instance of `expiry_rejection_is_strict` one instant past
expiry. -/
theorem expiry_rejection_is_strict_witness :
    (onPostToken [demoDoc] [demoUser] [] 101 demoReq).1 =
      TokenResult.err 400 "invalid_grant" "Authorization code expired." :=
  (expiry_rejection_is_strict [demoDoc] [demoUser] [] 101 demoReq demoDoc
    (by decide) (by decide) (by decide) (by decide) (by decide) (by decide)
    (by decide)).mpr (by decide)

/-- Validation of the embedded S256 transform against the PKCE test vector
of RFC 7636 appendix B. -/
theorem computedChallenge_rfc7636_vector :
    computedChallenge "dBjftJeZ4CVP-mB92K27uhbUJU1p1r_wW1gFWFOEjXk" =
      "E9Melhoa2OwvFrEMTJguCHaoeK1t8URWbuGJSstw-cM" := by decide

/-- C2: on a fully successful exchange the handler does mark the code
consumed and answers 200 with token_type Bearer and the fixed lifetime
86400 — but the `access_token` field is the result of
`Tokens.get_token(user_id)`, a lookup of a token document whose `token`
field equals the *user id*; when no stored token text equals the user id
(the invariant state, since that field stores JWTs), the body carries no
credential at all (`None`).  No fresh credential is ever issued. -/
theorem token_success_no_fresh_credential (authCodes : List AuthCodeDoc)
    (users : List UserDoc) (tokens : List TokenDoc) (now : Nat)
    (req : TokenRequest) (code_doc : AuthCodeDoc) (user : UserDoc)
    (hg : req.grant_type = some "authorization_code")
    (hc : falsy req.code = false) (hr : falsy req.redirect_uri = false)
    (hcl : falsy req.client_id = false) (hv : falsy req.code_verifier = false)
    (hf : findCode authCodes (req.code.getD "") = some code_doc)
    (hu : code_doc.used = false)
    (hexp : ¬ code_doc.expires_at < now)
    (hclid : code_doc.client_id = req.client_id.getD "")
    (hred : code_doc.redirect_uri = req.redirect_uri.getD "")
    (hpk : (code_doc.code_challenge_method = "S256" ∧
            computedChallenge (req.code_verifier.getD "") = code_doc.code_challenge) ∨
           (code_doc.code_challenge_method ≠ "S256" ∧
            req.code_verifier.getD "" = code_doc.code_challenge))
    (huser : get_user_by_id users code_doc.user_id = some user)
    (htok : ∀ t ∈ tokens, t.token ≠ code_doc.user_id) :
    onPostToken authCodes users tokens now req =
      (TokenResult.ok 200 none "Bearer" 86400,
       markUsed authCodes (req.code.getD "")) := by
  have hnone : get_token tokens code_doc.user_id = none := by
    rw [get_token, List.find?_eq_none]
    intro t ht
    simpa using htok t ht
  rcases hpk with ⟨hm, hch⟩ | ⟨hm, hch⟩ <;>
    simp [onPostToken, hg, hc, hr, hcl, hv, hf, hu, hexp, hclid, hred, hm,
      hch, huser, hnone]

/-- Closed instance of `token_success_no_fresh_credential` on the demo
fixtures: a perfectly valid redemption yields status 200, Bearer, 86400 —
and a `None` access token. -/
theorem token_success_no_fresh_credential_witness :
    onPostToken [demoDoc] [demoUser] [] 0 demoReq =
      (TokenResult.ok 200 none "Bearer" 86400,
       markUsed [demoDoc] (demoReq.code.getD "")) :=
  token_success_no_fresh_credential [demoDoc] [demoUser] [] 0 demoReq demoDoc
    demoUser (by decide) (by decide) (by decide) (by decide) (by decide)
    (by decide) (by decide) (by decide) (by decide) (by decide)
    (Or.inr (by decide)) (by decide) (by simp)

/-- C3 counterexample: redemption success is NOT equivalent to supplying
the original verifier.  There exist two different verifiers `v ≠ w` such
that a code stored with challenge `base64url(sha256(v))` in S256 mode is
successfully redeemed with verifier `w`: the challenge map has finite
range, hence collisions. -/
theorem pkce_not_injective_counterexample :
    ∃ v w : String, v ≠ w ∧
      (onPostToken [s256Doc v] [demoUser] [] 0 (verifierReq w)).1 =
        TokenResult.ok 200 none "Bearer" 86400 := by
  obtain ⟨v, w, hne, -, hw, heq⟩ := challenge_collision
  refine ⟨v, w, hne, ?_⟩
  simp [onPostToken, s256Doc, verifierReq, demoDoc, demoReq, demoUser,
    findCode, get_user_by_id, get_token, falsy, heq, hw]

/-- C3 (amended): in S256 mode, with every earlier check passing, the
exchange rejects with 400 `invalid_grant` / "PKCE validation failed."
exactly when the unpadded base64url SHA-256 encoding of the supplied
verifier differs from the stored challenge; in particular the verifier the
challenge was built from always passes the gate. -/
theorem pkce_s256_exact_hash_match (authCodes : List AuthCodeDoc)
    (users : List UserDoc) (tokens : List TokenDoc) (now : Nat)
    (req : TokenRequest) (code_doc : AuthCodeDoc)
    (hg : req.grant_type = some "authorization_code")
    (hc : falsy req.code = false) (hr : falsy req.redirect_uri = false)
    (hcl : falsy req.client_id = false) (hv : falsy req.code_verifier = false)
    (hf : findCode authCodes (req.code.getD "") = some code_doc)
    (hu : code_doc.used = false)
    (hexp : ¬ code_doc.expires_at < now)
    (hclid : code_doc.client_id = req.client_id.getD "")
    (hred : code_doc.redirect_uri = req.redirect_uri.getD "")
    (hm : code_doc.code_challenge_method = "S256") :
    ((onPostToken authCodes users tokens now req).1 =
      TokenResult.err 400 "invalid_grant" "PKCE validation failed.") ↔
    computedChallenge (req.code_verifier.getD "") ≠ code_doc.code_challenge := by
  by_cases hch : computedChallenge (req.code_verifier.getD "") =
      code_doc.code_challenge
  · have hne : (onPostToken authCodes users tokens now req).1 ≠
        TokenResult.err 400 "invalid_grant" "PKCE validation failed." := by
      unfold onPostToken
      simp only [hg, hc, hr, hcl, hv, hf, hu, hexp, hclid, hred, hm, hch]
      repeat' split
      all_goals simp_all
    simp [hne, hch]
  · simp [onPostToken, hg, hc, hr, hcl, hv, hf, hu, hexp, hclid, hred, hm, hch]

/-- Closed instance of `pkce_s256_exact_hash_match`: an S256 record whose
stored challenge is not the encoded hash of the supplied verifier is
rejected with the PKCE error. -/
theorem pkce_s256_exact_hash_match_witness :
    (onPostToken [s256Doc "other-verifier"] [demoUser] [] 0 demoReq).1 =
      TokenResult.err 400 "invalid_grant" "PKCE validation failed." :=
  (pkce_s256_exact_hash_match [s256Doc "other-verifier"] [demoUser] [] 0
    demoReq (s256Doc "other-verifier") (by decide) (by decide) (by decide)
    (by decide) (by decide) (by decide) (by decide) (by decide) (by decide)
    (by decide) (by decide)).mpr (by decide)

/-- C4: the eight validation steps of the token exchange run in source
order, each failing step answering 400 with exactly the error code and
description of the source: unsupported_grant_type, invalid_request
(missing parameters), invalid_grant (not found), invalid_grant (already
used), invalid_grant (expired), invalid_request (client id),
invalid_request (redirect), invalid_grant (PKCE, in either mode).  The
handler is a total function, so no input raises an unhandled exception. -/
theorem token_checks_in_order (authCodes : List AuthCodeDoc)
    (users : List UserDoc) (tokens : List TokenDoc) (now : Nat)
    (req : TokenRequest) :
    (req.grant_type ≠ some "authorization_code" →
      (onPostToken authCodes users tokens now req).1 =
        TokenResult.err 400 "unsupported_grant_type" "Must be authorization_code") ∧
    (req.grant_type = some "authorization_code" →
     (falsy req.code = true ∨ falsy req.redirect_uri = true ∨
      falsy req.client_id = true ∨ falsy req.code_verifier = true) →
      (onPostToken authCodes users tokens now req).1 =
        TokenResult.err 400 "invalid_request" "Missing required parameters") ∧
    (req.grant_type = some "authorization_code" →
     falsy req.code = false → falsy req.redirect_uri = false →
     falsy req.client_id = false → falsy req.code_verifier = false →
     findCode authCodes (req.code.getD "") = none →
      (onPostToken authCodes users tokens now req).1 =
        TokenResult.err 400 "invalid_grant" "Authorization code not found") ∧
    (∀ code_doc, req.grant_type = some "authorization_code" →
     falsy req.code = false → falsy req.redirect_uri = false →
     falsy req.client_id = false → falsy req.code_verifier = false →
     findCode authCodes (req.code.getD "") = some code_doc →
     code_doc.used = true →
      (onPostToken authCodes users tokens now req).1 =
        TokenResult.err 400 "invalid_grant" "Authorization code already used.") ∧
    (∀ code_doc, req.grant_type = some "authorization_code" →
     falsy req.code = false → falsy req.redirect_uri = false →
     falsy req.client_id = false → falsy req.code_verifier = false →
     findCode authCodes (req.code.getD "") = some code_doc →
     code_doc.used = false → code_doc.expires_at < now →
      (onPostToken authCodes users tokens now req).1 =
        TokenResult.err 400 "invalid_grant" "Authorization code expired.") ∧
    (∀ code_doc, req.grant_type = some "authorization_code" →
     falsy req.code = false → falsy req.redirect_uri = false →
     falsy req.client_id = false → falsy req.code_verifier = false →
     findCode authCodes (req.code.getD "") = some code_doc →
     code_doc.used = false → ¬ code_doc.expires_at < now →
     code_doc.client_id ≠ req.client_id.getD "" →
      (onPostToken authCodes users tokens now req).1 =
        TokenResult.err 400 "invalid_request" "Invalid client_id for this code.") ∧
    (∀ code_doc, req.grant_type = some "authorization_code" →
     falsy req.code = false → falsy req.redirect_uri = false →
     falsy req.client_id = false → falsy req.code_verifier = false →
     findCode authCodes (req.code.getD "") = some code_doc →
     code_doc.used = false → ¬ code_doc.expires_at < now →
     code_doc.client_id = req.client_id.getD "" →
     code_doc.redirect_uri ≠ req.redirect_uri.getD "" →
      (onPostToken authCodes users tokens now req).1 =
        TokenResult.err 400 "invalid_request" "Mismatched redirect_uri.") ∧
    (∀ code_doc, req.grant_type = some "authorization_code" →
     falsy req.code = false → falsy req.redirect_uri = false →
     falsy req.client_id = false → falsy req.code_verifier = false →
     findCode authCodes (req.code.getD "") = some code_doc →
     code_doc.used = false → ¬ code_doc.expires_at < now →
     code_doc.client_id = req.client_id.getD "" →
     code_doc.redirect_uri = req.redirect_uri.getD "" →
     code_doc.code_challenge_method = "S256" →
     computedChallenge (req.code_verifier.getD "") ≠ code_doc.code_challenge →
      (onPostToken authCodes users tokens now req).1 =
        TokenResult.err 400 "invalid_grant" "PKCE validation failed.") ∧
    (∀ code_doc, req.grant_type = some "authorization_code" →
     falsy req.code = false → falsy req.redirect_uri = false →
     falsy req.client_id = false → falsy req.code_verifier = false →
     findCode authCodes (req.code.getD "") = some code_doc →
     code_doc.used = false → ¬ code_doc.expires_at < now →
     code_doc.client_id = req.client_id.getD "" →
     code_doc.redirect_uri = req.redirect_uri.getD "" →
     code_doc.code_challenge_method ≠ "S256" →
     req.code_verifier.getD "" ≠ code_doc.code_challenge →
      (onPostToken authCodes users tokens now req).1 =
        TokenResult.err 400 "invalid_grant" "PKCE (plain) validation failed.") := by
  refine ⟨?_, ?_, ?_, ?_, ?_, ?_, ?_, ?_, ?_⟩
  · intro h
    simp [onPostToken, h]
  · intro hg h
    rcases h with h | h | h | h <;> simp [onPostToken, hg, h]
  · intro hg hc hr hcl hv hf
    simp [onPostToken, hg, hc, hr, hcl, hv, hf]
  · intro code_doc hg hc hr hcl hv hf hu
    simp [onPostToken, hg, hc, hr, hcl, hv, hf, hu]
  · intro code_doc hg hc hr hcl hv hf hu hexp
    simp [onPostToken, hg, hc, hr, hcl, hv, hf, hu, hexp]
  · intro code_doc hg hc hr hcl hv hf hu hexp hclid
    simp [onPostToken, hg, hc, hr, hcl, hv, hf, hu, hexp, hclid]
  · intro code_doc hg hc hr hcl hv hf hu hexp hclid hred
    simp [onPostToken, hg, hc, hr, hcl, hv, hf, hu, hexp, hclid, hred]
  · intro code_doc hg hc hr hcl hv hf hu hexp hclid hred hm hch
    simp [onPostToken, hg, hc, hr, hcl, hv, hf, hu, hexp, hclid, hred, hm, hch]
  · intro code_doc hg hc hr hcl hv hf hu hexp hclid hred hm hch
    simp [onPostToken, hg, hc, hr, hcl, hv, hf, hu, hexp, hclid, hred, hm, hch]

/-- Closed instances of every conjunct of `token_checks_in_order`, one
concrete failing request per validation step. -/
theorem token_checks_in_order_witness :
    ((onPostToken [] [] [] 0 { demoReq with grant_type := some "password" }).1 =
       TokenResult.err 400 "unsupported_grant_type" "Must be authorization_code") ∧
    ((onPostToken [] [] [] 0 { demoReq with code_verifier := none }).1 =
       TokenResult.err 400 "invalid_request" "Missing required parameters") ∧
    ((onPostToken [] [] [] 0 demoReq).1 =
       TokenResult.err 400 "invalid_grant" "Authorization code not found") ∧
    ((onPostToken [usedDemoDoc] [] [] 0 demoReq).1 =
       TokenResult.err 400 "invalid_grant" "Authorization code already used.") ∧
    ((onPostToken [demoDoc] [] [] 101 demoReq).1 =
       TokenResult.err 400 "invalid_grant" "Authorization code expired.") ∧
    ((onPostToken [demoDoc] [] [] 0 { demoReq with client_id := some "other" }).1 =
       TokenResult.err 400 "invalid_request" "Invalid client_id for this code.") ∧
    ((onPostToken [demoDoc] [] [] 0
        { demoReq with redirect_uri := some "https://example.com/evil" }).1 =
       TokenResult.err 400 "invalid_request" "Mismatched redirect_uri.") ∧
    ((onPostToken [{ demoDoc with code_challenge_method := "S256" }] [] [] 0
        demoReq).1 =
       TokenResult.err 400 "invalid_grant" "PKCE validation failed.") ∧
    ((onPostToken [demoDoc] [] [] 0 { demoReq with code_verifier := some "bad" }).1 =
       TokenResult.err 400 "invalid_grant" "PKCE (plain) validation failed.") :=
  ⟨(token_checks_in_order [] [] [] 0 _).1 (by decide),
   (token_checks_in_order [] [] [] 0 _).2.1 (by decide) (by decide),
   (token_checks_in_order [] [] [] 0 _).2.2.1 (by decide) (by decide) (by decide)
     (by decide) (by decide) (by decide),
   (token_checks_in_order [usedDemoDoc] [] [] 0 _).2.2.2.1 usedDemoDoc
     (by decide) (by decide) (by decide) (by decide) (by decide) (by decide)
     (by decide),
   (token_checks_in_order [demoDoc] [] [] 101 _).2.2.2.2.1 demoDoc
     (by decide) (by decide) (by decide) (by decide) (by decide) (by decide)
     (by decide) (by decide),
   (token_checks_in_order [demoDoc] [] [] 0 _).2.2.2.2.2.1 demoDoc
     (by decide) (by decide) (by decide) (by decide) (by decide) (by decide)
     (by decide) (by decide) (by decide),
   (token_checks_in_order [demoDoc] [] [] 0 _).2.2.2.2.2.2.1 demoDoc
     (by decide) (by decide) (by decide) (by decide) (by decide) (by decide)
     (by decide) (by decide) (by decide) (by decide),
   (token_checks_in_order [{ demoDoc with code_challenge_method := "S256" }]
      [] [] 0 _).2.2.2.2.2.2.2.1 { demoDoc with code_challenge_method := "S256" }
     (by decide) (by decide) (by decide) (by decide) (by decide) (by decide)
     (by decide) (by decide) (by decide) (by decide) (by decide) (by decide),
   (token_checks_in_order [demoDoc] [] [] 0 _).2.2.2.2.2.2.2.2 demoDoc
     (by decide) (by decide) (by decide) (by decide) (by decide) (by decide)
     (by decide) (by decide) (by decide) (by decide) (by decide) (by decide)⟩

/-- C6: with an authenticated user, a valid response_type, client_id and
code_challenge present but NO redirect_uri, the authorize endpoint does
not answer a direct error — it answers 302 with a Location rendered from
the literal text `None`, so redirect-based error signaling is used even
when no redirect_uri was supplied. -/
theorem authorize_missing_redirect_still_redirects :
    onGetAuthorize [] 0 "AUTHCODE" (some "u1") (some "code") (some "client-1")
      none (some "challenge-x") none none none =
      (AuthorizeResult.redirect 302
        "None?error=invalid_request&error_description=Missing client_id, redirect_uri, or code_challenge",
       []) := by
  decide

/-- C7: on a protected path the gate takes the credential from a nonempty
session cookie when one is present (the Authorization header then plays no
part); with no cookie it requires a header splitting into exactly two
whitespace-separated parts whose first lower-cases to "bearer", and a
missing header or any other shape is rejected with a 401 raised before any
route handler runs. -/
theorem auth_gate_credential_extraction (decode : String → JwtOutcome)
    (tokens : List TokenDoc) (path : String)
    (hsse : path ≠ "/sse") (hapi : pyStartsWith path "/api" = true)
    (hreg : path ≠ "/api/auth/register") (hlog : path ≠ "/api/auth/login")
    (hchat : path ≠ "/api/chat") :
    (∀ t hd hd', t ≠ "" →
      process_request decode tokens ⟨path, some t, hd⟩ =
        process_request decode tokens ⟨path, some t, hd'⟩) ∧
    (∀ hd, falsy hd = true →
      process_request decode tokens ⟨path, none, hd⟩ =
        AuthDecision.unauthorized "Missing Authorization header or session cookie") ∧
    (∀ h, h ≠ "" →
      ((pySplit h).length ≠ 2 ∨ pyLower ((pySplit h).headD "") ≠ "bearer") →
      process_request decode tokens ⟨path, none, some h⟩ =
        AuthDecision.unauthorized
          "Invalid Authorization header format. Use \x27Bearer <token>\x27") := by
  refine ⟨?_, ?_, ?_⟩
  · intro t hd hd' ht
    simp [process_request, hsse, hapi, hreg, hlog, hchat, falsy, ht]
  · intro hd hhd
    cases hd with
    | none => simp [process_request, hsse, hapi, hreg, hlog, hchat, falsy]
    | some s =>
      have hs : s = "" := by simpa [falsy] using hhd
      subst hs
      simp [process_request, hsse, hapi, hreg, hlog, hchat, falsy]
  · intro h hne hshape
    have hshape' : ¬ (pySplit h).length = 2 ∨
        ¬ pyLower ((pySplit h).head?.getD "") = "bearer" := by
      simpa using hshape
    rcases hshape' with hs | hs <;>
      simp [process_request, hsse, hapi, hreg, hlog, hchat, falsy, hne, hs]

/-- Closed instances of `auth_gate_credential_extraction` on the protected
path of the MCP endpoint. -/
theorem auth_gate_credential_extraction_witness :
    (process_request (fun _ => JwtOutcome.invalid) []
        ⟨"/api/mcp", some "tok", some "garbage header"⟩ =
      process_request (fun _ => JwtOutcome.invalid) []
        ⟨"/api/mcp", some "tok", none⟩) ∧
    (process_request (fun _ => JwtOutcome.invalid) [] ⟨"/api/mcp", none, none⟩ =
      AuthDecision.unauthorized "Missing Authorization header or session cookie") ∧
    (process_request (fun _ => JwtOutcome.invalid) []
        ⟨"/api/mcp", none, some "Basic dXNlcg"⟩ =
      AuthDecision.unauthorized
        "Invalid Authorization header format. Use \x27Bearer <token>\x27") :=
  ⟨(auth_gate_credential_extraction (fun _ => JwtOutcome.invalid) [] "/api/mcp"
      (by decide) (by decide) (by decide) (by decide) (by decide)).1
     "tok" (some "garbage header") none (by decide),
   (auth_gate_credential_extraction (fun _ => JwtOutcome.invalid) [] "/api/mcp"
      (by decide) (by decide) (by decide) (by decide) (by decide)).2.1
     none (by decide),
   (auth_gate_credential_extraction (fun _ => JwtOutcome.invalid) [] "/api/mcp"
      (by decide) (by decide) (by decide) (by decide) (by decide)).2.2
     "Basic dXNlcg" (by decide) (by decide)⟩

/-- C8 counterexample: a `create_user` failure that is not a duplicate
username — here the user store failing outright on a fresh username — is
reported as 409 Conflict, not as a 500-class internal error; so 409 is not
returned exactly when the username exists, and store failures do not
surface as internal errors. -/
theorem register_store_failure_counterexample :
    registerOnPost [] "fresh-id" (Except.error "store unavailable")
      (some "alice") (some "pw") =
      RegisterResult.httpError 409 "store unavailable" := by
  decide

/-- C8 (amended): every failure raised by `create_user` — duplicate
username or any other store error — surfaces as 409 Conflict carrying the
exception text, never as a success; the 500 path
(`custom_handle_uncaught_exception`) is reached only by exceptions outside
the guarded call. -/
theorem register_conflict_on_any_failure (users : List UserDoc)
    (newId : String) (insertOutcome : Except String Unit)
    (username password : Option String)
    (hu : falsy username = false) (hp : falsy password = false) :
    (∀ e, create_user users newId insertOutcome (username.getD "") =
        Except.error e →
      registerOnPost users newId insertOutcome username password =
        RegisterResult.httpError 409 e) ∧
    (∀ doc, create_user users newId insertOutcome (username.getD "") =
        Except.ok doc →
      registerOnPost users newId insertOutcome username password =
        RegisterResult.registered 201 doc.id) := by
  constructor <;> intro x hx <;> simp [registerOnPost, hu, hp, hx]

/-- Closed instance of `register_conflict_on_any_failure`: the duplicate
username case yields 409 with the source exception text. -/
theorem register_conflict_on_any_failure_witness :
    registerOnPost [demoUser] "id2" (Except.ok ()) (some "alice") (some "pw") =
      RegisterResult.httpError 409 "Username already taken" :=
  (register_conflict_on_any_failure [demoUser] "id2" (Except.ok ())
    (some "alice") (some "pw") (by decide) (by decide)).1
    "Username already taken" rfl

/-- C9: the token-exchange path is registered in the route table and is
not on the middleware allow-list; whatever the supplied credentials, the
gate never passes such a request through unauthenticated — it either
aborts with a 401 before the OAuth handler runs or attaches an
authenticated user. -/
theorem token_endpoint_requires_auth :
    "/api/oauth/token" ∈ appRoutes ∧
    ∀ (decode : String → JwtOutcome) (tokens : List TokenDoc)
      (ck hd : Option String),
      process_request decode tokens ⟨"/api/oauth/token", ck, hd⟩ ≠
        AuthDecision.passthrough ∧
      ((∃ d, process_request decode tokens ⟨"/api/oauth/token", ck, hd⟩ =
          AuthDecision.unauthorized d) ∨
       (∃ u, process_request decode tokens ⟨"/api/oauth/token", ck, hd⟩ =
          AuthDecision.authenticated u)) := by
  refine ⟨by decide, fun decode tokens ck hd => ?_⟩
  have hnp : process_request decode tokens ⟨"/api/oauth/token", ck, hd⟩ ≠
      AuthDecision.passthrough := by
    unfold process_request
    intro hcontr
    repeat' split at hcontr
    all_goals solve
      | simp_all [show pyStartsWith "/api/oauth/token" "/api" = true from
          by decide]
      | exact absurd hcontr (checkToken_ne_passthrough _ _ _)
      | (dsimp only at hcontr
         split at hcontr
         · exact AuthDecision.noConfusion hcontr
         · exact absurd hcontr (checkToken_ne_passthrough _ _ _))
  refine ⟨hnp, ?_⟩
  cases hres : process_request decode tokens ⟨"/api/oauth/token", ck, hd⟩ with
  | passthrough => exact absurd hres hnp
  | unauthorized d => exact Or.inl ⟨d, rfl⟩
  | authenticated u => exact Or.inr ⟨u, rfl⟩

/-- Closed instance of `token_endpoint_requires_auth`: with no credentials
at all the request is not passed through. -/
theorem token_endpoint_requires_auth_witness :
    process_request (fun _ => JwtOutcome.invalid) []
      ⟨"/api/oauth/token", none, none⟩ ≠ AuthDecision.passthrough :=
  (token_endpoint_requires_auth.2 (fun _ => JwtOutcome.invalid) [] none none).1

end OnlyMcp
